import Mathlib

/-!
Shallow embedding of `src/yuzu/bootmanager.cpp` (yuzu front-end boot manager):
the `EmuThread::run` run-control loop and the `GRenderWindow` render-surface
widget (touch/mouse event translation, first-frame notification, OpenGL
loading, framebuffer layout).  Definitions mirror the C++ source; theorems
settle the specification claims.
-/

namespace Bootmanager

/-- `Core::System::ResultStatus`: `Success` or an error code. -/
inductive ResultStatus where
  | Success : ResultStatus
  | Error : Nat → ResultStatus
  deriving DecidableEq, Repr

/-- The externally visible flags of `EmuThread` used by `EmuThread::run`
(lines 94-126): `stop_run`, `running`, `exec_step` are written by other
threads; `running_guard` and the local `was_active` are written by the loop. -/
structure LoopState where
  stop_run : Bool
  running : Bool
  exec_step : Bool
  running_guard : Bool
  was_active : Bool
  deriving DecidableEq, Repr

/-- Actions by other threads that may occur while the loop blocks in a wait
(`running_wait.Wait()` at line 107, or `running_cv.wait` at line 124):
a `SetRunning(b)` call, a stop request (sets `stop_run`, never clears it),
and a step request toggle on `exec_step`. -/
structure EnvAtWait where
  setRunning : Option Bool
  setStop : Bool
  setStep : Option Bool
  deriving DecidableEq, Repr

/-- Apply the environment actions of a wait point to the loop state. -/
def EnvAtWait.apply (e : EnvAtWait) (s : LoopState) : LoopState :=
  { s with
    running := e.setRunning.getD s.running
    stop_run := s.stop_run || e.setStop
    exec_step := e.setStep.getD s.exec_step }

/-- One loop iteration's interactions with the outside world: the results the
emulation core returns from `system.Run()` and `system.Pause()`, the status
detail strings read at the `emit ErrorThrown` sites, and the environment
actions at the two wait points. -/
structure EnvInput where
  runResult : ResultStatus
  runDetails : String
  pauseResult : ResultStatus
  pauseDetails : String
  atWait : EnvAtWait
  atCvWake : EnvAtWait
  deriving DecidableEq, Repr

/-- Observable actions the loop performs, in program order: signal emissions,
guard-flag writes, `SetRunning(false)` calls, `Run`/`Pause` invocations and
the final `system.Shutdown()`. -/
inductive LoopAction where
  | DebugModeLeft : LoopAction
  | SetGuard : Bool → LoopAction
  | CallRun : LoopAction
  | CallPause : LoopAction
  | SetRunningFalse : LoopAction
  | ErrorThrown : ResultStatus → String → LoopAction
  | DebugModeEntered : LoopAction
  | ShutdownCore : LoopAction
  deriving DecidableEq, Repr

/-- The failure-handling block at lines 102-106 and 109-113: clear
`running_guard`, call `SetRunning(false)`, emit `ErrorThrown` with the result
code and the status-details string. -/
def failureActs (r : ResultStatus) (details : String) : List LoopAction :=
  [LoopAction.SetGuard false, LoopAction.SetRunningFalse,
   LoopAction.ErrorThrown r details]

/-- State after lines 100-106: `running_guard` was set before `Run()`; a
non-success result clears it again and `SetRunning(false)` clears `running`. -/
def stateAfterRun (s : LoopState) (env : EnvInput) : LoopState :=
  let s1 : LoopState := { s with running_guard := true }
  if env.runResult ≠ ResultStatus.Success then
    { s1 with running_guard := false, running := false }
  else s1

/-- State after lines 107-113: the environment may act during
`running_wait.Wait()`, then `Pause()` gets the same failure handling. -/
def stateAfterPause (s : LoopState) (env : EnvInput) : LoopState :=
  let s3 : LoopState := env.atWait.apply (stateAfterRun s env)
  if env.pauseResult ≠ ResultStatus.Success then
    { s3 with running_guard := false, running := false }
  else s3

/-- State after lines 114-119: clear `running_guard`; when `stop_run` is
still unset, record `was_active = true`. -/
def stateAtIterEnd (s : LoopState) (env : EnvInput) : LoopState :=
  let s5 : LoopState := { stateAfterPause s env with running_guard := false }
  if s5.stop_run then s5 else { s5 with was_active := true }

/-- Action trace of the `if (running)` branch (lines 95-119), in program
order: `DebugModeLeft` when `was_active`; guard set; `Run()`; the failure
block on a non-success result; `Pause()`; its failure block; guard clear;
`DebugModeEntered` when no stop was requested. -/
def runningIterActs (s : LoopState) (env : EnvInput) : List LoopAction :=
  (if s.was_active then [LoopAction.DebugModeLeft] else []) ++
  [LoopAction.SetGuard true, LoopAction.CallRun] ++
  (if env.runResult ≠ ResultStatus.Success then
    failureActs env.runResult env.runDetails
   else []) ++
  [LoopAction.CallPause] ++
  (if env.pauseResult ≠ ResultStatus.Success then
    failureActs env.pauseResult env.pauseDetails
   else []) ++
  [LoopAction.SetGuard false] ++
  (if (stateAfterPause s env).stop_run then [] else [LoopAction.DebugModeEntered])

/-- The `if (running)` branch of the loop body (bootmanager.cpp lines
95-119): its action trace and the state it leaves behind. -/
def runningIter (s : LoopState) (env : EnvInput) : List LoopAction × LoopState :=
  (runningIterActs s env, stateAtIterEnd s env)

/-- Outcome of one pass through the loop body. -/
inductive IterOutcome where
  | next : List LoopAction → LoopState → IterOutcome
  | unimplemented : IterOutcome
  deriving DecidableEq, Repr

/-- One pass through the loop body (lines 95-125): the `if (running)` branch,
the `else if (exec_step)` branch which trips `UNIMPLEMENTED()`, or the
condition-variable wait during which the environment may change the flags. -/
def emuIter (s : LoopState) (env : EnvInput) : IterOutcome :=
  if s.running then
    IterOutcome.next (runningIter s env).1 (runningIter s env).2
  else if s.exec_step then
    IterOutcome.unimplemented
  else
    IterOutcome.next [] (env.atCvWake.apply s)

/-- The action trace of one pass (empty when `UNIMPLEMENTED()` aborts). -/
def iterActions (s : LoopState) (env : EnvInput) : List LoopAction :=
  match emuIter s env with
  | IterOutcome.next acts _ => acts
  | IterOutcome.unimplemented => []

/-- Outcome of the whole `while (!stop_run)` loop plus the trailing
`system.Shutdown()` (line 129): normal exit, an `UNIMPLEMENTED()` abort, or
exhaustion of the supplied environment trace while still looping. -/
inductive RunOutcome where
  | finished : List LoopAction → RunOutcome
  | aborted : List LoopAction → RunOutcome
  | outOfFuel : RunOutcome
  deriving DecidableEq, Repr

/-- The `while (!stop_run)` loop (lines 94-126) followed by
`system.Shutdown()` (line 129), driven by a finite environment trace. -/
def emuLoop (s : LoopState) : List EnvInput → RunOutcome
  | [] =>
    if s.stop_run then RunOutcome.finished [LoopAction.ShutdownCore]
    else RunOutcome.outOfFuel
  | env :: rest =>
    if s.stop_run then RunOutcome.finished [LoopAction.ShutdownCore]
    else
      match emuIter s env with
      | IterOutcome.unimplemented => RunOutcome.aborted []
      | IterOutcome.next acts s2 =>
        match emuLoop s2 rest with
        | RunOutcome.finished rest_acts => RunOutcome.finished (acts ++ rest_acts)
        | RunOutcome.aborted rest_acts => RunOutcome.aborted (acts ++ rest_acts)
        | RunOutcome.outOfFuel => RunOutcome.outOfFuel

/-- The state the loop starts in at line 94: `was_active` was just set to
`false` (line 93); the thread-control flags hold arbitrary caller-set values. -/
def initialWasActive : Bool := false

/-- The iterations the loop actually performs on an environment trace: for
each pass, the state at the loop head, the action trace, and the state after
the pass.  Empty once `stop_run` is observed, at an `UNIMPLEMENTED()` abort,
or when the trace is exhausted. -/
def loopIters (s : LoopState) : List EnvInput → List (LoopState × List LoopAction × LoopState)
  | [] => []
  | env :: rest =>
    if s.stop_run then []
    else
      match emuIter s env with
      | IterOutcome.unimplemented => []
      | IterOutcome.next acts s2 => (s, acts, s2) :: loopIters s2 rest

/-- Whether a pass through the loop body was a completed `Run`/`Pause` cycle
with no stop request raised by its end: it entered the `running` branch and
the `if (!stop_run)` check at line 116 passed (which is exactly when the code
sets `was_active = true`). -/
def iterCompleted (pre post : LoopState) : Bool :=
  pre.running && !post.stop_run

/- ----------------------------------------------------------------------
Touch handling (`GRenderWindow`, lines 380-384 and 441-463).
---------------------------------------------------------------------- -/

/-- `Qt::TouchPointState` of one touch point. -/
inductive TouchPointState where
  | Pressed : TouchPointState
  | Moved : TouchPointState
  | Stationary : TouchPointState
  | Released : TouchPointState
  deriving DecidableEq, Repr

/-- One `QTouchEvent::TouchPoint`: its state and its `pos()` (a `QPointF`,
modelled with rational coordinates). -/
structure TouchPoint where
  state : TouchPointState
  pos : ℚ × ℚ
  deriving DecidableEq, Repr

/-- The test `tp.state() & (Qt::TouchPointPressed | Qt::TouchPointMoved |
Qt::TouchPointStationary)` at line 453. -/
def tpActive (tp : TouchPoint) : Bool :=
  match tp.state with
  | TouchPointState.Pressed => true
  | TouchPointState.Moved => true
  | TouchPointState.Stationary => true
  | TouchPointState.Released => false

/-- `std::round`: round half away from zero. -/
def cppRound (x : ℚ) : ℤ :=
  if 0 ≤ x then ⌊x + 1 / 2⌋ else -⌊-x + 1 / 2⌋

/-- `GRenderWindow::ScaleTouch` (lines 380-384): scale a `QPointF` by the
device pixel ratio, round, clamp below at zero, and cast to `u32`. -/
def scaleTouch (pixel_ratio : ℚ) (pos : ℚ × ℚ) : ℕ × ℕ :=
  ((max (cppRound (pos.1 * pixel_ratio)) 0).toNat,
   (max (cppRound (pos.2 * pixel_ratio)) 0).toNat)

/-- `GRenderWindow::TouchBeginEvent` (lines 441-445): forward the first touch
point's position through `ScaleTouch` to `TouchPressed` (`none` models the
undefined `.first()` of an empty point list, which Qt never delivers). -/
def touchBeginEvent (pixel_ratio : ℚ) (pts : List TouchPoint) : Option (ℕ × ℕ) :=
  pts.head?.map (fun tp => scaleTouch pixel_ratio tp.pos)

/-- The loop body of `TouchUpdateEvent` (lines 452-457): accumulate the
position sum and the active-point count over the event's touch points. -/
def touchAccum (acc : (ℚ × ℚ) × ℕ) (tp : TouchPoint) : (ℚ × ℚ) × ℕ :=
  if tpActive tp then ((acc.1.1 + tp.pos.1, acc.1.2 + tp.pos.2), acc.2 + 1)
  else acc

/-- The divisor of the `pos /= active_points` statement at line 459: the
number of active touch points accumulated by the loop. -/
def touchUpdateDivisor (pts : List TouchPoint) : ℕ :=
  (pts.foldl touchAccum ((0, 0), 0)).2

/-- `GRenderWindow::TouchUpdateEvent` (lines 447-463): average the active
touch points' positions, scale, and forward to `TouchMoved`.  (With no active
point the C++ divides by zero on doubles; here rational division by zero
yields zero.) -/
def touchUpdateEvent (pixel_ratio : ℚ) (pts : List TouchPoint) : ℕ × ℕ :=
  let acc := pts.foldl touchAccum ((0, 0), 0)
  let pos : ℚ × ℚ := (acc.1.1 / (acc.2 : ℚ), acc.1.2 / (acc.2 : ℚ))
  scaleTouch pixel_ratio pos

/-- Stated from the claim's words, for comparison with `touchUpdateEvent`:
the arithmetic mean of ALL the touch points' positions. -/
def meanAllPoints (pts : List TouchPoint) : ℚ × ℚ :=
  ((pts.map (fun tp => tp.pos.1)).sum / (pts.length : ℚ),
   (pts.map (fun tp => tp.pos.2)).sum / (pts.length : ℚ))

/-- Stated from the spec's words, for comparison with `touchUpdateEvent`:
the arithmetic mean of the ACTIVE touch points' positions. -/
def meanActivePoints (pts : List TouchPoint) : ℚ × ℚ :=
  (((pts.filter tpActive).map (fun tp => tp.pos.1)).sum / ((pts.filter tpActive).length : ℚ),
   ((pts.filter tpActive).map (fun tp => tp.pos.2)).sum / ((pts.filter tpActive).length : ℚ))

/- ----------------------------------------------------------------------
First-frame notification (`PollEvents` lines 326-331, `InitRenderTarget`
line 509).
---------------------------------------------------------------------- -/

/-- `GRenderWindow::PollEvents` (lines 326-331) acting on the `first_frame`
flag: returns the new flag value and whether `FirstFrameDisplayed` was
emitted. -/
def pollEvents (first_frame : Bool) : Bool × Bool :=
  if !first_frame then (true, true) else (first_frame, false)

/-- `InitRenderTarget` resets `first_frame = false` (line 509). -/
def initRenderTargetFirstFrame : Bool := false

/-- The emissions of `n` successive `PollEvents` calls starting from a given
`first_frame` flag value. -/
def pollEmissions : Bool → ℕ → List Bool
  | _, 0 => []
  | ff, n + 1 =>
    let r := pollEvents ff
    r.2 :: pollEmissions r.1 n

/- ----------------------------------------------------------------------
OpenGL loading (`LoadOpenGL` lines 629-649, `GetUnsupportedGLExtensions`
lines 651-679).
---------------------------------------------------------------------- -/

/-- The GLAD extension-support flags queried by
`GetUnsupportedGLExtensions`. -/
structure GLExtensions where
  arb_buffer_storage : Bool
  arb_direct_state_access : Bool
  arb_vertex_type_10f_11f_11f_rev : Bool
  arb_texture_mirror_clamp_to_edge : Bool
  arb_multi_bind : Bool
  arb_clip_control : Bool
  ext_texture_compression_s3tc : Bool
  arb_texture_compression_rgtc : Bool
  arb_depth_buffer_float : Bool
  deriving DecidableEq, Repr

/-- `GRenderWindow::GetUnsupportedGLExtensions` (lines 651-679): append, in
the source's fixed order, the name of each required extension whose GLAD flag
is unset. -/
def getUnsupportedGLExtensions (e : GLExtensions) : List String :=
  (if e.arb_buffer_storage then [] else ["ARB_buffer_storage"]) ++
  (if e.arb_direct_state_access then [] else ["ARB_direct_state_access"]) ++
  (if e.arb_vertex_type_10f_11f_11f_rev then [] else ["ARB_vertex_type_10f_11f_11f_rev"]) ++
  (if e.arb_texture_mirror_clamp_to_edge then [] else ["ARB_texture_mirror_clamp_to_edge"]) ++
  (if e.arb_multi_bind then [] else ["ARB_multi_bind"]) ++
  (if e.arb_clip_control then [] else ["ARB_clip_control"]) ++
  (if e.ext_texture_compression_s3tc then [] else ["EXT_texture_compression_s3tc"]) ++
  (if e.arb_texture_compression_rgtc then [] else ["ARB_texture_compression_rgtc"]) ++
  (if e.arb_depth_buffer_float then [] else ["ARB_depth_buffer_float"])

/-- A blocking `QMessageBox::critical` dialog shown by `LoadOpenGL`. -/
inductive Dialog where
  | openGL43Error : Dialog
  | missingExtensions : List String → Dialog
  deriving DecidableEq, Repr

/-- `GRenderWindow::LoadOpenGL` (lines 629-649): fail with a dialog when
`gladLoadGL()` fails; fail with a dialog listing the unsupported extensions
when the list is nonempty; otherwise succeed.  Returns the boolean result and
the dialogs shown. -/
def loadOpenGL (gladLoadGL : Bool) (e : GLExtensions) : Bool × List Dialog :=
  if !gladLoadGL then (false, [Dialog.openGL43Error])
  else
    let unsupported_gl_extensions := getUnsupportedGLExtensions e
    if !unsupported_gl_extensions.isEmpty then
      (false, [Dialog.missingExtensions unsupported_gl_extensions])
    else (true, [])

/- ----------------------------------------------------------------------
Framebuffer layout (`OnFramebufferSizeChanged` lines 342-349, `resizeEvent`
lines 489-492, `showEvent` lines 689-695).
---------------------------------------------------------------------- -/

/-- `static_cast<u32>` of a nonnegative `qreal`: truncate toward zero, modulo
the 32-bit range. -/
def u32OfQreal (x : ℚ) : ℕ :=
  (Int.toNat ⌊x⌋) % 2 ^ 32

/-- `GRenderWindow::OnFramebufferSizeChanged` (lines 342-349): the layout
passed to `UpdateCurrentFramebufferLayout` is widget width and height each
multiplied by the device pixel ratio and cast to `u32`. -/
def onFramebufferSizeChanged (w h : ℕ) (pixel_ratio : ℚ) : ℕ × ℕ :=
  (u32OfQreal ((w : ℚ) * pixel_ratio), u32OfQreal ((h : ℚ) * pixel_ratio))

/-- Widget state relevant to framebuffer-layout recomputation: current size,
device pixel ratio, whether `showEvent` has connected the `screenChanged`
signal, and the last computed layout. -/
structure WidgetState where
  width : ℕ
  height : ℕ
  pixel_ratio : ℚ
  shown : Bool
  fb : ℕ × ℕ
  deriving DecidableEq, Repr

/-- The widget events that drive layout recomputation. -/
inductive WidgetEvent where
  | resize : ℕ → ℕ → WidgetEvent
  | screenChanged : ℚ → WidgetEvent
  | show : WidgetEvent
  deriving DecidableEq, Repr

/-- Event dispatch: `resizeEvent` (lines 489-492) stores the new size then
calls `OnFramebufferSizeChanged`; a `screenChanged` signal reaches
`OnFramebufferSizeChanged` only after `showEvent` (lines 689-695) made the
connection; `showEvent` itself only connects. -/
def handleWidgetEvent (s : WidgetState) : WidgetEvent → WidgetState
  | WidgetEvent.resize w h =>
    { s with width := w, height := h,
             fb := onFramebufferSizeChanged w h s.pixel_ratio }
  | WidgetEvent.screenChanged r =>
    if s.shown then
      { s with pixel_ratio := r, fb := onFramebufferSizeChanged s.width s.height r }
    else
      { s with pixel_ratio := r }
  | WidgetEvent.show => { s with shown := true }

/- ----------------------------------------------------------------------
Mouse events (lines 399-439).
---------------------------------------------------------------------- -/

/-- `Qt::MouseEventSource` of a mouse event. -/
inductive MouseEventSource where
  | MouseEventNotSynthesized : MouseEventSource
  | MouseEventSynthesizedBySystem : MouseEventSource
  | MouseEventSynthesizedByQt : MouseEventSource
  | MouseEventSynthesizedByApplication : MouseEventSource
  deriving DecidableEq, Repr

/-- The mouse button of a `QMouseEvent`, as distinguished by the handlers. -/
inductive MouseButton where
  | LeftButton : MouseButton
  | RightButton : MouseButton
  | OtherButton : MouseButton
  deriving DecidableEq, Repr

/-- A `QMouseEvent`: its source, button and `pos()`. -/
structure MouseEvent where
  source : MouseEventSource
  button : MouseButton
  pos : ℚ × ℚ
  deriving DecidableEq, Repr

/-- Calls forwarded to the input abstraction (`TouchPressed`/`TouchMoved`/
`TouchReleased` on the window, `BeginTilt`/`Tilt`/`EndTilt` on the motion
emulator). -/
inductive InputAction where
  | TouchPressed : ℕ → ℕ → InputAction
  | TouchMoved : ℕ → ℕ → InputAction
  | TouchReleased : InputAction
  | BeginTilt : ℚ → ℚ → InputAction
  | Tilt : ℚ → ℚ → InputAction
  | EndTilt : InputAction
  deriving DecidableEq, Repr

/-- `GRenderWindow::mousePressEvent` (lines 399-413): ignore mouse events
synthesized from touches; left button forwards a scaled `TouchPressed`,
right button a `BeginTilt`. -/
def mousePressEvent (pixel_ratio : ℚ) (e : MouseEvent) : List InputAction :=
  if e.source = MouseEventSource.MouseEventSynthesizedBySystem then []
  else if e.button = MouseButton.LeftButton then
    [InputAction.TouchPressed (scaleTouch pixel_ratio e.pos).1 (scaleTouch pixel_ratio e.pos).2]
  else if e.button = MouseButton.RightButton then
    [InputAction.BeginTilt e.pos.1 e.pos.2]
  else []

/-- `GRenderWindow::mouseMoveEvent` (lines 415-426): ignore mouse events
synthesized from touches; otherwise forward a scaled `TouchMoved` and a
`Tilt`. -/
def mouseMoveEvent (pixel_ratio : ℚ) (e : MouseEvent) : List InputAction :=
  if e.source = MouseEventSource.MouseEventSynthesizedBySystem then []
  else
    [InputAction.TouchMoved (scaleTouch pixel_ratio e.pos).1 (scaleTouch pixel_ratio e.pos).2,
     InputAction.Tilt e.pos.1 e.pos.2]

/-- `GRenderWindow::mouseReleaseEvent` (lines 428-439): ignore mouse events
synthesized from touches; left button forwards `TouchReleased`, right button
`EndTilt`. -/
def mouseReleaseEvent (e : MouseEvent) : List InputAction :=
  if e.source = MouseEventSource.MouseEventSynthesizedBySystem then []
  else if e.button = MouseButton.LeftButton then [InputAction.TouchReleased]
  else if e.button = MouseButton.RightButton then [InputAction.EndTilt]
  else []

/- ----------------------------------------------------------------------
Helper lemmas.
---------------------------------------------------------------------- -/

/-- Once `first_frame` is set, `PollEvents` never emits again. -/
theorem pollEmissions_of_true : ∀ n : ℕ, pollEmissions true n = List.replicate n false := by
  intro n
  induction n with
  | zero => rfl
  | succ k ih => simp [pollEmissions, pollEvents, ih, List.replicate_succ]

/-- Membership in a conditionally empty list. -/
theorem mem_ite_nil {α : Type} {c : Prop} [Decidable c] {l : List α} {a : α} :
    a ∈ (if c then ([] : List α) else l) ↔ ¬c ∧ a ∈ l := by
  split
  · simp [*]
  · simp [*]

/-- The fold of `TouchUpdateEvent`'s loop body sums the active points'
coordinates and counts the active points. -/
theorem touchAccum_foldl :
    ∀ (pts : List TouchPoint) (acc : (ℚ × ℚ) × ℕ),
      pts.foldl touchAccum acc =
        ((acc.1.1 + ((pts.filter tpActive).map (fun tp => tp.pos.1)).sum,
          acc.1.2 + ((pts.filter tpActive).map (fun tp => tp.pos.2)).sum),
         acc.2 + (pts.filter tpActive).length) := by
  intro pts
  induction pts with
  | nil => intro acc; simp
  | cons tp rest ih =>
    intro acc
    by_cases h : tpActive tp
    · simp [touchAccum, h, ih, List.filter_cons, add_assoc, add_comm, add_left_comm]
    · simp [touchAccum, h, ih, List.filter_cons]

/- ----------------------------------------------------------------------
Claim theorems.
---------------------------------------------------------------------- -/

/-- C6: the `FirstFrameDisplayed` notification is one-shot: starting from the
`first_frame` value that `InitRenderTarget` resets, the first `PollEvents`
call emits and every one of the `n` subsequent calls does not. -/
theorem first_frame_one_shot :
    ∀ n : ℕ,
      pollEmissions initRenderTargetFirstFrame (n + 1) = true :: List.replicate n false := by
  intro n
  simp [pollEmissions, pollEvents, initRenderTargetFirstFrame, pollEmissions_of_true]

/-- C10: a mouse press, move or release event whose source is
`Qt::MouseEventSynthesizedBySystem` forwards nothing: no touch call and no
motion-emulation call. -/
theorem synthesized_mouse_events_ignored :
    ∀ (pixel_ratio : ℚ) (e : MouseEvent),
      e.source = MouseEventSource.MouseEventSynthesizedBySystem →
      mousePressEvent pixel_ratio e = [] ∧ mouseMoveEvent pixel_ratio e = [] ∧
        mouseReleaseEvent e = [] := by
  intro pixel_ratio e h
  refine ⟨?_, ?_, ?_⟩ <;> simp [mousePressEvent, mouseMoveEvent, mouseReleaseEvent, h]

/-- Witness for C10 at a concrete synthesized left-button event. -/
theorem synthesized_mouse_events_ignored_witness :
    mousePressEvent 2 ⟨MouseEventSource.MouseEventSynthesizedBySystem,
        MouseButton.LeftButton, (3, 4)⟩ = [] ∧
      mouseMoveEvent 2 ⟨MouseEventSource.MouseEventSynthesizedBySystem,
        MouseButton.LeftButton, (3, 4)⟩ = [] ∧
      mouseReleaseEvent ⟨MouseEventSource.MouseEventSynthesizedBySystem,
        MouseButton.LeftButton, (3, 4)⟩ = [] :=
  synthesized_mouse_events_ignored 2
    ⟨MouseEventSource.MouseEventSynthesizedBySystem, MouseButton.LeftButton, (3, 4)⟩ rfl

/-- C8: a resize event recomputes the framebuffer layout as the new widget
width and height each multiplied by the device pixel ratio and converted to
an unsigned integer, and a screen-change event after the widget is shown
recomputes it likewise with the new pixel ratio. -/
theorem framebuffer_layout_recomputed :
    ∀ (s : WidgetState) (w h : ℕ) (r : ℚ),
      ((handleWidgetEvent s (WidgetEvent.resize w h)).fb =
        (u32OfQreal ((w : ℚ) * s.pixel_ratio), u32OfQreal ((h : ℚ) * s.pixel_ratio))) ∧
      (s.shown = true →
        (handleWidgetEvent s (WidgetEvent.screenChanged r)).fb =
          (u32OfQreal ((s.width : ℚ) * r), u32OfQreal ((s.height : ℚ) * r))) := by
  intro s w h r
  constructor
  · simp [handleWidgetEvent, onFramebufferSizeChanged]
  · intro hs
    simp [handleWidgetEvent, onFramebufferSizeChanged, hs]

/-- Witness for C8 at a concrete widget state and events. -/
theorem framebuffer_layout_recomputed_witness :
    ((handleWidgetEvent ⟨10, 20, 2, true, (0, 0)⟩ (WidgetEvent.resize 30 40)).fb =
      (u32OfQreal ((30 : ℚ) * 2), u32OfQreal ((40 : ℚ) * 2))) ∧
    (handleWidgetEvent ⟨10, 20, 2, true, (0, 0)⟩ (WidgetEvent.screenChanged 3)).fb =
      (u32OfQreal ((10 : ℚ) * 3), u32OfQreal ((20 : ℚ) * 3)) :=
  ⟨(framebuffer_layout_recomputed ⟨10, 20, 2, true, (0, 0)⟩ 30 40 3).1,
   (framebuffer_layout_recomputed ⟨10, 20, 2, true, (0, 0)⟩ 30 40 3).2 rfl⟩

/-- C7: `LoadOpenGL` returns `false` exactly when OpenGL function loading
fails or at least one of the nine required extensions is unsupported; in the
missing-extension case the single blocking dialog shown carries exactly the
unsupported-extension list, and an extension name appears in that list
exactly when its GLAD support flag is unset. -/
theorem loadOpenGL_failure_characterization :
    ∀ (gladLoadGL : Bool) (e : GLExtensions),
      ((loadOpenGL gladLoadGL e).1 = false ↔
        (gladLoadGL = false ∨ getUnsupportedGLExtensions e ≠ [])) ∧
      (gladLoadGL = true → getUnsupportedGLExtensions e ≠ [] →
        (loadOpenGL gladLoadGL e).2 =
          [Dialog.missingExtensions (getUnsupportedGLExtensions e)]) ∧
      (∀ s : String,
        s ∈ getUnsupportedGLExtensions e ↔
          ((e.arb_buffer_storage = false ∧ s = "ARB_buffer_storage") ∨
           (e.arb_direct_state_access = false ∧ s = "ARB_direct_state_access") ∨
           (e.arb_vertex_type_10f_11f_11f_rev = false ∧ s = "ARB_vertex_type_10f_11f_11f_rev") ∨
           (e.arb_texture_mirror_clamp_to_edge = false ∧ s = "ARB_texture_mirror_clamp_to_edge") ∨
           (e.arb_multi_bind = false ∧ s = "ARB_multi_bind") ∨
           (e.arb_clip_control = false ∧ s = "ARB_clip_control") ∨
           (e.ext_texture_compression_s3tc = false ∧ s = "EXT_texture_compression_s3tc") ∨
           (e.arb_texture_compression_rgtc = false ∧ s = "ARB_texture_compression_rgtc") ∨
           (e.arb_depth_buffer_float = false ∧ s = "ARB_depth_buffer_float"))) := by
  intro gladLoadGL e
  refine ⟨?_, ?_, ?_⟩
  · cases gladLoadGL with
    | false => simp [loadOpenGL]
    | true =>
      by_cases h : getUnsupportedGLExtensions e = []
      · simp [loadOpenGL, h]
      · simp [loadOpenGL, h, List.isEmpty_iff]
  · intro hg hne
    simp [loadOpenGL, hg, List.isEmpty_iff, hne]
  · intro s
    simp only [getUnsupportedGLExtensions, List.mem_append, mem_ite_nil,
      List.mem_singleton, Bool.not_eq_true, or_assoc]

/-- Witness for C7: one GPU missing exactly `ARB_multi_bind` and
`ARB_depth_buffer_float`. -/
theorem loadOpenGL_failure_characterization_witness :
    ((loadOpenGL true ⟨true, true, true, true, false, true, true, true, false⟩).1 = false ↔
      ((true : Bool) = false ∨
        getUnsupportedGLExtensions ⟨true, true, true, true, false, true, true, true, false⟩ ≠ [])) ∧
    (loadOpenGL true ⟨true, true, true, true, false, true, true, true, false⟩).2 =
      [Dialog.missingExtensions
        (getUnsupportedGLExtensions ⟨true, true, true, true, false, true, true, true, false⟩)] ∧
    "ARB_multi_bind" ∈
      getUnsupportedGLExtensions ⟨true, true, true, true, false, true, true, true, false⟩ :=
  ⟨(loadOpenGL_failure_characterization true
      ⟨true, true, true, true, false, true, true, true, false⟩).1,
   (loadOpenGL_failure_characterization true
      ⟨true, true, true, true, false, true, true, true, false⟩).2.1 rfl
     (by simp [getUnsupportedGLExtensions]),
   ((loadOpenGL_failure_characterization true
      ⟨true, true, true, true, false, true, true, true, false⟩).2.2 "ARB_multi_bind").mpr
     (Or.inr (Or.inr (Or.inr (Or.inr (Or.inl ⟨rfl, rfl⟩)))))⟩

/-- C9: the divisor of `TouchUpdateEvent`'s averaging division is the number
of touch points in the `Pressed`/`Moved`/`Stationary` states: it is positive
exactly when the event has at least one such active point, and zero when
every point is in another state. -/
theorem touch_update_divisor_active_points :
    ∀ pts : List TouchPoint,
      (touchUpdateDivisor pts = (pts.filter tpActive).length) ∧
      ((∃ tp ∈ pts, tpActive tp = true) → 0 < touchUpdateDivisor pts) ∧
      ((∀ tp ∈ pts, tpActive tp = false) → touchUpdateDivisor pts = 0) := by
  intro pts
  have hlen : touchUpdateDivisor pts = (pts.filter tpActive).length := by
    simp [touchUpdateDivisor, touchAccum_foldl]
  refine ⟨hlen, ?_, ?_⟩
  · rintro ⟨tp, htp, hact⟩
    rw [hlen]
    exact List.length_pos.mpr (fun hnil => (List.filter_eq_nil_iff.mp hnil) tp htp (by simp [hact]))
  · intro hall
    rw [hlen]
    simp [List.filter_eq_nil_iff]
    intro tp htp
    simp [hall tp htp]

/-- Witness for C9: one active and one released point give divisor 1; a
single released point gives divisor 0. -/
theorem touch_update_divisor_active_points_witness :
    0 < touchUpdateDivisor
        [⟨TouchPointState.Moved, (2, 2)⟩, ⟨TouchPointState.Released, (0, 0)⟩] ∧
      touchUpdateDivisor [⟨TouchPointState.Released, (0, 0)⟩] = 0 :=
  ⟨(touch_update_divisor_active_points
      [⟨TouchPointState.Moved, (2, 2)⟩, ⟨TouchPointState.Released, (0, 0)⟩]).2.1
      ⟨⟨TouchPointState.Moved, (2, 2)⟩, by simp, rfl⟩,
   (touch_update_divisor_active_points [⟨TouchPointState.Released, (0, 0)⟩]).2.2
      (by intro tp htp; simp at htp; simp [htp, tpActive])⟩

/-- A touch-update event with one moved point at (2, 2) and one released
point at (0, 0): the code averages only the active point. -/
def c5Pts : List TouchPoint :=
  [⟨TouchPointState.Moved, (2, 2)⟩, ⟨TouchPointState.Released, (0, 0)⟩]

/-- C5 counterexample: at pixel ratio 1, `TouchUpdateEvent` on `c5Pts`
forwards (2, 2) — the active point — not the arithmetic mean (1, 1) of all
the touch points' positions, so the claim as stated is false. -/
theorem touch_update_not_mean_of_all_points :
    touchUpdateEvent 1 c5Pts ≠ scaleTouch 1 (meanAllPoints c5Pts) := by
  have h1 : touchUpdateEvent 1 c5Pts = (2, 2) := by
    simp [touchUpdateEvent, c5Pts, touchAccum, tpActive, scaleTouch, cppRound]
    norm_num [Int.toNat]
  have h2 : scaleTouch 1 (meanAllPoints c5Pts) = (1, 1) := by
    simp [meanAllPoints, c5Pts, scaleTouch, cppRound]
    norm_num [Int.toNat]
  rw [h1, h2]
  simp

/-- C5 amended: a touch-begin event forwards the first touch point's position
scaled by the device pixel ratio (rounded, clamped at zero); a touch-update
event with at least one active (`Pressed`/`Moved`/`Stationary`) point
forwards the arithmetic mean of the ACTIVE touch points' positions, scaled
the same way. -/
theorem touch_events_forward_scaled_positions :
    ∀ (pixel_ratio : ℚ) (tp : TouchPoint) (rest : List TouchPoint)
      (pts : List TouchPoint),
      touchBeginEvent pixel_ratio (tp :: rest) = some (scaleTouch pixel_ratio tp.pos) ∧
      (0 < (pts.filter tpActive).length →
        touchUpdateEvent pixel_ratio pts = scaleTouch pixel_ratio (meanActivePoints pts)) := by
  intro pixel_ratio tp rest pts
  constructor
  · simp [touchBeginEvent]
  · intro _
    simp [touchUpdateEvent, touchAccum_foldl, meanActivePoints]

/-- Witness for C5 amended: a begin event at (3, 4) with ratio 2, and an
update event with one active point. -/
theorem touch_events_forward_scaled_positions_witness :
    touchBeginEvent 2 [⟨TouchPointState.Pressed, (3, 4)⟩] =
        some (scaleTouch 2 (3, 4)) ∧
      touchUpdateEvent 2 [⟨TouchPointState.Moved, (5, 6)⟩] =
        scaleTouch 2 (meanActivePoints [⟨TouchPointState.Moved, (5, 6)⟩]) :=
  ⟨(touch_events_forward_scaled_positions 2 ⟨TouchPointState.Pressed, (3, 4)⟩ []
      [⟨TouchPointState.Moved, (5, 6)⟩]).1,
   (touch_events_forward_scaled_positions 2 ⟨TouchPointState.Pressed, (3, 4)⟩ []
      [⟨TouchPointState.Moved, (5, 6)⟩]).2 (by simp [tpActive])⟩

/-- Membership in a conditionally taken list. -/
theorem mem_ite_nil_else {α : Type} {c : Prop} [Decidable c] {l : List α} {a : α} :
    a ∈ (if c then l else ([] : List α)) ↔ c ∧ a ∈ l := by
  split
  · simp [*]
  · simp [*]

/-- A pass that starts with `running` unset never calls `Run()`: both the
`exec_step` branch and the condition-variable wait perform no core call. -/
theorem callRun_not_mem_of_not_running :
    ∀ (s : LoopState) (env : EnvInput), s.running = false →
      LoopAction.CallRun ∉ iterActions s env := by
  intro s env h
  cases hstep : s.exec_step <;> simp [iterActions, emuIter, h, hstep]

/-- C1: when the running branch gets a non-success result from `Run()` or
from `Pause()`, its action trace contains — contiguously and in program
order — the guard clear, the `SetRunning(false)` call, and the `ErrorThrown`
emission carrying the result code and the core's status details; and after a
failed `Run()`, unless another thread calls `SetRunning` during the waits,
the iteration ends with `running = false`, so the next pass never re-invokes
`Run()`: the loop itself does not retry. -/
theorem run_pause_failure_stops_and_reports :
    ∀ (s : LoopState) (env : EnvInput), s.running = true →
      (env.runResult ≠ ResultStatus.Success →
        ∃ pre suf, iterActions s env =
          pre ++ failureActs env.runResult env.runDetails ++ suf) ∧
      (env.pauseResult ≠ ResultStatus.Success →
        ∃ pre suf, iterActions s env =
          pre ++ failureActs env.pauseResult env.pauseDetails ++ suf) ∧
      (env.runResult ≠ ResultStatus.Success → env.atWait.setRunning = none →
        (stateAtIterEnd s env).running = false ∧
        ∀ env2 : EnvInput,
          LoopAction.CallRun ∉ iterActions (stateAtIterEnd s env) env2) := by
  intro s env hr
  have hacts : iterActions s env = runningIterActs s env := by
    simp [iterActions, emuIter, hr, runningIter]
  have hrunning : env.runResult ≠ ResultStatus.Success → env.atWait.setRunning = none →
      (stateAtIterEnd s env).running = false := by
    intro h hnone
    simp only [stateAtIterEnd, stateAfterPause, stateAfterRun, EnvAtWait.apply, h,
      if_true, ite_not, hnone, Option.getD_none]
    split_ifs <;> simp_all
  refine ⟨?_, ?_, ?_⟩
  · intro h
    refine ⟨(if s.was_active then [LoopAction.DebugModeLeft] else []) ++
      [LoopAction.SetGuard true, LoopAction.CallRun],
      [LoopAction.CallPause] ++
        (if env.pauseResult ≠ ResultStatus.Success then
          failureActs env.pauseResult env.pauseDetails
         else []) ++
        [LoopAction.SetGuard false] ++
        (if (stateAfterPause s env).stop_run then [] else [LoopAction.DebugModeEntered]), ?_⟩
    rw [hacts]
    simp [runningIterActs, h]
  · intro h
    refine ⟨(if s.was_active then [LoopAction.DebugModeLeft] else []) ++
      [LoopAction.SetGuard true, LoopAction.CallRun] ++
      (if env.runResult ≠ ResultStatus.Success then
        failureActs env.runResult env.runDetails
       else []) ++
      [LoopAction.CallPause],
      [LoopAction.SetGuard false] ++
        (if (stateAfterPause s env).stop_run then [] else [LoopAction.DebugModeEntered]), ?_⟩
    rw [hacts]
    simp [runningIterActs, h]
  · intro h hnone
    refine ⟨hrunning h hnone, fun env2 => ?_⟩
    exact callRun_not_mem_of_not_running _ env2 (hrunning h hnone)

/-- Witness for C1: a failing `Run()` (error code 1) with no concurrent
`SetRunning`, from a running state. -/
theorem run_pause_failure_stops_and_reports_witness :
    (∃ pre suf,
      iterActions ⟨false, true, false, false, false⟩
          ⟨ResultStatus.Error 1, "run failed", ResultStatus.Success, "",
           ⟨none, false, none⟩, ⟨none, false, none⟩⟩ =
        pre ++ failureActs (ResultStatus.Error 1) "run failed" ++ suf) ∧
    (stateAtIterEnd ⟨false, true, false, false, false⟩
        ⟨ResultStatus.Error 1, "run failed", ResultStatus.Success, "",
         ⟨none, false, none⟩, ⟨none, false, none⟩⟩).running = false :=
  ⟨((run_pause_failure_stops_and_reports ⟨false, true, false, false, false⟩
      ⟨ResultStatus.Error 1, "run failed", ResultStatus.Success, "",
       ⟨none, false, none⟩, ⟨none, false, none⟩⟩ rfl).1 (by decide)),
   ((run_pause_failure_stops_and_reports ⟨false, true, false, false, false⟩
      ⟨ResultStatus.Error 1, "run failed", ResultStatus.Success, "",
       ⟨none, false, none⟩, ⟨none, false, none⟩⟩ rfl).2.2 (by decide) rfl).1⟩

/-- No pass through the loop body performs the shutdown: `ShutdownCore`
never occurs in a running-branch action trace. -/
theorem shutdown_not_mem_runningIterActs :
    ∀ (s : LoopState) (env : EnvInput),
      LoopAction.ShutdownCore ∉ runningIterActs s env := by
  intro s env
  simp [runningIterActs, failureActs, mem_ite_nil, mem_ite_nil_else]

/-- No pass through the loop body performs the shutdown. -/
theorem shutdown_not_mem_iter :
    ∀ (s : LoopState) (env : EnvInput) (acts : List LoopAction) (s2 : LoopState),
      emuIter s env = IterOutcome.next acts s2 →
      LoopAction.ShutdownCore ∉ acts := by
  intro s env acts s2 h
  by_cases hr : s.running
  · simp [emuIter, hr, runningIter] at h
    rw [← h.1]
    exact shutdown_not_mem_runningIterActs s env
  · cases hstep : s.exec_step
    · simp [emuIter, hr, hstep] at h
      rw [h.1]
      simp
    · simp [emuIter, hr, hstep] at h

/-- C2: whenever the loop terminates normally — which happens exactly when a
requested stop is observed — the action trace ends with exactly one
`system.Shutdown()` invocation, and none occurs earlier, whatever errors the
iterations emitted before. -/
theorem shutdown_exactly_once :
    ∀ (envs : List EnvInput) (s : LoopState) (acts : List LoopAction),
      emuLoop s envs = RunOutcome.finished acts →
      ∃ pre, acts = pre ++ [LoopAction.ShutdownCore] ∧
        LoopAction.ShutdownCore ∉ pre := by
  intro envs
  induction envs with
  | nil =>
    intro s acts h
    by_cases hs : s.stop_run
    · simp [emuLoop, hs] at h
      exact ⟨[], by simp [← h]⟩
    · simp [emuLoop, hs] at h
  | cons env rest ih =>
    intro s acts h
    by_cases hs : s.stop_run
    · simp [emuLoop, hs] at h
      exact ⟨[], by simp [← h]⟩
    · cases hit : emuIter s env with
      | unimplemented => simp [emuLoop, hs, hit] at h
      | next a s2 =>
        cases hrest : emuLoop s2 rest with
        | finished rest_acts =>
          simp [emuLoop, hs, hit, hrest] at h
          obtain ⟨pre, hpre, hmem⟩ := ih s2 rest_acts hrest
          refine ⟨a ++ pre, ?_, ?_⟩
          · rw [← h, hpre]
            simp
          · simp only [List.mem_append]
            rintro (hsd | hsd)
            · exact shutdown_not_mem_iter s env a s2 hit hsd
            · exact hmem hsd
        | aborted rest_acts => simp [emuLoop, hs, hit, hrest] at h
        | outOfFuel => simp [emuLoop, hs, hit, hrest] at h

/-- Witness for C2: a run with a failing `Run()` whose environment raises a
stop during the wait; the trace carries the error and ends in the single
shutdown. -/
theorem shutdown_exactly_once_witness :
    ∃ pre,
      [LoopAction.SetGuard true, LoopAction.CallRun, LoopAction.SetGuard false,
       LoopAction.SetRunningFalse, LoopAction.ErrorThrown (ResultStatus.Error 2) "boom",
       LoopAction.CallPause, LoopAction.SetGuard false, LoopAction.ShutdownCore] =
        pre ++ [LoopAction.ShutdownCore] ∧
      LoopAction.ShutdownCore ∉ pre :=
  shutdown_exactly_once
    [⟨ResultStatus.Error 2, "boom", ResultStatus.Success, "",
      ⟨none, true, none⟩, ⟨none, false, none⟩⟩]
    ⟨false, true, false, false, false⟩
    [LoopAction.SetGuard true, LoopAction.CallRun, LoopAction.SetGuard false,
     LoopAction.SetRunningFalse, LoopAction.ErrorThrown (ResultStatus.Error 2) "boom",
     LoopAction.CallPause, LoopAction.SetGuard false, LoopAction.ShutdownCore]
    rfl

/-- A not-running state with a pending step request. -/
def c3S : LoopState := ⟨false, false, true, false, false⟩

/-- An environment input with successful core calls and a quiet environment. -/
def c3Env : EnvInput :=
  ⟨ResultStatus.Success, "", ResultStatus.Success, "",
   ⟨none, false, none⟩, ⟨none, false, none⟩⟩

/-- C3 counterexample: with `running` unset and `exec_step` set, the loop
body reaches `UNIMPLEMENTED()` — it does not perform a single-stepping
transition and return to waiting; the run aborts instead of continuing. -/
theorem exec_step_trips_unimplemented_at_input :
    emuIter c3S c3Env = IterOutcome.unimplemented ∧
      emuLoop c3S [c3Env] = RunOutcome.aborted [] :=
  ⟨rfl, rfl⟩

/-- C3 amended: when the loop observes a step request (`exec_step`) while not
running, it trips the `UNIMPLEMENTED()` assertion — single-stepping is not
implemented — and the run aborts rather than returning to waiting. -/
theorem exec_step_unimplemented :
    ∀ (s : LoopState) (env : EnvInput) (envs : List EnvInput),
      s.running = false → s.exec_step = true →
      emuIter s env = IterOutcome.unimplemented ∧
      (s.stop_run = false → emuLoop s (env :: envs) = RunOutcome.aborted []) := by
  intro s env envs hr hstep
  have h1 : emuIter s env = IterOutcome.unimplemented := by
    simp [emuIter, hr, hstep]
  exact ⟨h1, fun hs => by simp [emuLoop, hs, h1]⟩

/-- Witness for C3 amended at the concrete stepping state. -/
theorem exec_step_unimplemented_witness :
    emuIter c3S c3Env = IterOutcome.unimplemented ∧
      emuLoop c3S (c3Env :: []) = RunOutcome.aborted [] :=
  ⟨(exec_step_unimplemented c3S c3Env [] rfl rfl).1,
   (exec_step_unimplemented c3S c3Env [] rfl rfl).2 rfl⟩

/-- `DebugModeLeft` occurs in a running-branch trace exactly when
`was_active` held at the head of the pass. -/
theorem dml_mem_runningIterActs :
    ∀ (s : LoopState) (env : EnvInput),
      LoopAction.DebugModeLeft ∈ runningIterActs s env ↔ s.was_active = true := by
  intro s env
  simp [runningIterActs, failureActs, mem_ite_nil, mem_ite_nil_else]

/-- `DebugModeLeft` occurs in a pass's trace exactly when the pass entered
the running branch with `was_active` set. -/
theorem dml_mem_iterActions :
    ∀ (s : LoopState) (env : EnvInput),
      LoopAction.DebugModeLeft ∈ iterActions s env ↔
        (s.running = true ∧ s.was_active = true) := by
  intro s env
  by_cases hr : s.running
  · simp [iterActions, emuIter, hr, runningIter, dml_mem_runningIterActs]
  · cases hstep : s.exec_step <;> simp [iterActions, emuIter, hr, hstep]

/-- The `Pause`-failure handling does not touch `was_active`. -/
theorem stateAfterPause_was_active :
    ∀ (s : LoopState) (env : EnvInput),
      (stateAfterPause s env).was_active = s.was_active := by
  intro s env
  simp only [stateAfterPause, stateAfterRun, EnvAtWait.apply]
  split_ifs <;> rfl

/-- The end-of-pass bookkeeping does not change `stop_run`. -/
theorem stateAtIterEnd_stop :
    ∀ (s : LoopState) (env : EnvInput),
      (stateAtIterEnd s env).stop_run = (stateAfterPause s env).stop_run := by
  intro s env
  simp only [stateAtIterEnd]
  split_ifs <;> rfl

/-- After a running pass, `was_active` holds exactly when it held before or
no stop request was pending at the end-of-pass check. -/
theorem stateAtIterEnd_was_active :
    ∀ (s : LoopState) (env : EnvInput),
      (stateAtIterEnd s env).was_active =
        (s.was_active || !(stateAfterPause s env).stop_run) := by
  intro s env
  simp only [stateAtIterEnd]
  cases hstop : (stateAfterPause s env).stop_run <;>
    simp [hstop, stateAfterPause_was_active]

/-- Across one pass, `was_active` becomes (or stays) set exactly when it was
set before or this pass was a completed running cycle without a stop. -/
theorem was_active_step :
    ∀ (s : LoopState) (env : EnvInput) (acts : List LoopAction) (s2 : LoopState),
      emuIter s env = IterOutcome.next acts s2 →
      s2.was_active = (s.was_active || (s.running && !s2.stop_run)) := by
  intro s env acts s2 h
  by_cases hr : s.running
  · simp [emuIter, hr, runningIter] at h
    rw [← h.2, hr]
    rw [stateAtIterEnd_was_active s env, stateAtIterEnd_stop s env]
    simp
  · cases hstep : s.exec_step
    · simp [emuIter, hr, hstep] at h
      rw [← h.2]
      have hrf : s.running = false := by simpa using hr
      simp [EnvAtWait.apply, hrf]
    · simp [emuIter, hr, hstep] at h

/-- Every recorded pass of `loopIters` is a successful `emuIter` step. -/
theorem loopIters_elem :
    ∀ (envs : List EnvInput) (s : LoopState) (i : ℕ) (pre : LoopState)
      (acts : List LoopAction) (post : LoopState),
      (loopIters s envs)[i]? = some (pre, acts, post) →
      ∃ env, emuIter pre env = IterOutcome.next acts post := by
  intro envs
  induction envs with
  | nil => intro s i pre acts post h; simp [loopIters] at h
  | cons env rest ih =>
    intro s i pre acts post h
    by_cases hs : s.stop_run
    · simp [loopIters, hs] at h
    · cases hit : emuIter s env with
      | unimplemented => simp [loopIters, hs, hit] at h
      | next a s2 =>
        have hlist : loopIters s (env :: rest) = (s, a, s2) :: loopIters s2 rest := by
          simp [loopIters, hs, hit]
        rw [hlist] at h
        cases i with
        | zero =>
          simp at h
          obtain ⟨h1, h2, h3⟩ := h
          exact ⟨env, by rw [← h1, ← h2, ← h3]; exact hit⟩
        | succ k =>
          simp only [List.getElem?_cons_succ] at h
          exact ih s2 k pre acts post h

/-- At the head of the `i`-th recorded pass, `was_active` holds exactly when
it held at loop entry or some earlier recorded pass was a completed running
cycle without a stop. -/
theorem loopIters_was_active :
    ∀ (envs : List EnvInput) (s : LoopState) (i : ℕ) (pre : LoopState)
      (acts : List LoopAction) (post : LoopState),
      (loopIters s envs)[i]? = some (pre, acts, post) →
      (pre.was_active = true ↔
        (s.was_active = true ∨
          ∃ j, j < i ∧ ∃ p a q, (loopIters s envs)[j]? = some (p, a, q) ∧
            iterCompleted p q = true)) := by
  intro envs
  induction envs with
  | nil => intro s i pre acts post h; simp [loopIters] at h
  | cons env rest ih =>
    intro s i pre acts post h
    by_cases hs : s.stop_run
    · simp [loopIters, hs] at h
    · cases hit : emuIter s env with
      | unimplemented => simp [loopIters, hs, hit] at h
      | next a s2 =>
        have hlist : loopIters s (env :: rest) = (s, a, s2) :: loopIters s2 rest := by
          simp [loopIters, hs, hit]
        rw [hlist] at h ⊢
        cases i with
        | zero =>
          simp at h
          obtain ⟨h1, _, _⟩ := h
          rw [← h1]
          simp
        | succ k =>
          simp only [List.getElem?_cons_succ] at h
          have hrec := ih s2 k pre acts post h
          have hwa : s2.was_active = (s.was_active || (s.running && !s2.stop_run)) :=
            was_active_step s env a s2 hit
          rw [hrec]
          constructor
          · rintro (h2 | ⟨j, hj, p, aa, q, hget, hcomp⟩)
            · rw [hwa] at h2
              have h2opt : s.was_active = true ∨ (s.running && !s2.stop_run) = true := by
                simpa using h2
              rcases h2opt with h3 | h3
              · exact Or.inl h3
              · exact Or.inr ⟨0, Nat.succ_pos k, s, a, s2, by simp,
                  by simpa [iterCompleted] using h3⟩
            · exact Or.inr ⟨j + 1, by omega, p, aa, q, by simpa using hget, hcomp⟩
          · rintro (h2 | ⟨j, hj, p, aa, q, hget, hcomp⟩)
            · left
              rw [hwa, h2]
              simp
            · cases j with
              | zero =>
                simp at hget
                obtain ⟨hp, ha, hq⟩ := hget
                left
                rw [hwa]
                rw [← hp, ← hq] at hcomp
                simp [iterCompleted] at hcomp
                simp [hcomp]
              | succ m =>
                exact Or.inr ⟨m, by omega, p, aa, q, by simpa using hget, hcomp⟩

/-- C4: starting from loop entry (`was_active` freshly cleared), a recorded
pass emits `DebugModeLeft` exactly when it enters the running branch and some
earlier pass completed its `Run`/`Pause` cycle with no stop request raised by
its end; in particular the first entry into the running branch after thread
start never emits it. -/
theorem debug_mode_left_iff_previously_paused :
    ∀ (envs : List EnvInput) (s0 : LoopState), s0.was_active = false →
      ∀ (i : ℕ) (pre : LoopState) (acts : List LoopAction) (post : LoopState),
        (loopIters s0 envs)[i]? = some (pre, acts, post) →
        (LoopAction.DebugModeLeft ∈ acts ↔
          (pre.running = true ∧
            ∃ j, j < i ∧ ∃ p a q, (loopIters s0 envs)[j]? = some (p, a, q) ∧
              iterCompleted p q = true)) := by
  intro envs s0 h0 i pre acts post h
  obtain ⟨env, hit⟩ := loopIters_elem envs s0 i pre acts post h
  have hacts : iterActions pre env = acts := by
    simp [iterActions, hit]
  have hmem : LoopAction.DebugModeLeft ∈ acts ↔
      (pre.running = true ∧ pre.was_active = true) := by
    rw [← hacts]
    exact dml_mem_iterActions pre env
  have hchar := loopIters_was_active envs s0 i pre acts post h
  rw [hmem, hchar, h0]
  simp

/-- Initial loop state for the C4 witness: running, nothing else set. -/
def c4S0 : LoopState := ⟨false, true, false, false, false⟩

/-- Quiet successful environment input for the C4 witness. -/
def c4Env : EnvInput :=
  ⟨ResultStatus.Success, "", ResultStatus.Success, "",
   ⟨none, false, none⟩, ⟨none, false, none⟩⟩

/-- Witness for C4: on two successful running passes, the second pass emits
`DebugModeLeft` because the first completed its cycle without a stop. -/
theorem debug_mode_left_iff_previously_paused_witness :
    LoopAction.DebugModeLeft ∈
      [LoopAction.DebugModeLeft, LoopAction.SetGuard true, LoopAction.CallRun,
       LoopAction.CallPause, LoopAction.SetGuard false, LoopAction.DebugModeEntered] :=
  (debug_mode_left_iff_previously_paused [c4Env, c4Env] c4S0 rfl 1
      ⟨false, true, false, false, true⟩
      [LoopAction.DebugModeLeft, LoopAction.SetGuard true, LoopAction.CallRun,
       LoopAction.CallPause, LoopAction.SetGuard false, LoopAction.DebugModeEntered]
      ⟨false, true, false, false, true⟩ rfl).mpr
    ⟨rfl,
     ⟨0, Nat.zero_lt_one, c4S0,
      [LoopAction.SetGuard true, LoopAction.CallRun, LoopAction.CallPause,
       LoopAction.SetGuard false, LoopAction.DebugModeEntered],
      ⟨false, true, false, false, true⟩, rfl, rfl⟩⟩

end Bootmanager
